import Mathlib

/-!
Shallow embedding of the mundialis `i.sentinel_2` GRASS addon scripts.

Rasters are modelled as fixed-length lists of optional integer cell values
(`none` is a GRASS null cell).  The external GRASS raster commands that the
scripts invoke (`r.mapcalc`, `r.mask`, `r.univar`, `r.patch`, `r.quantile`,
`r.sample.category`) are modelled cell-wise from their documented semantics.
Exact rational arithmetic stands in for Python floats; every concrete input
used below is exactly representable in binary floating point (or rounds to
the same value on both sides of the compared expressions), so the comparison
results agree with the Python code.
-/

/-- A raster layer on a fixed grid: cell `i` holds `none` (a GRASS null cell)
or an integer value. -/
abbrev Raster := List (Option Int)

/-- Number of non-null cells of a raster, as reported by `r.univar` field
`n`. -/
def cellCount (r : Raster) : Nat := (r.filterMap id).length

/-- Function `test_percentage` of `i.sentinel_2.autotraining.py` (lines
168-173): returns `True` iff
`n_raster / reference_cells > percentage_threshold * 0.01`. -/
def test_percentage (nRaster referenceCells : Nat) (percentageThreshold : ℚ) : Bool :=
  decide ((nRaster : ℚ) / (referenceCells : ℚ) > percentageThreshold * (1 / 100))

/-- One candidate training class of the autotraining module: the integer
class code from the `(class_code, class_label)` tuples, the name of its
candidate training raster, and that raster. -/
structure TrainingClass where
  code : Int
  name : String
  raster : Raster
  deriving DecidableEq

/-- The gating of `main` in `i.sentinel_2.autotraining.py`: each of the five
candidate classes is appended to `output_classes` / `training_rasters` iff
`test_percentage` succeeds on its candidate raster (lines 261-263, 328-330,
387-389, 451-453, 486-488), with `total_cells` the non-null cell count of the
NDVI input (lines 221-223). -/
def outputClasses (candidates : List TrainingClass) (totalCells : Nat)
    (percentageThreshold : ℚ) : List TrainingClass :=
  candidates.filter fun c => test_percentage (cellCount c.raster) totalCells percentageThreshold

/-- Cell-wise patching rule of `r.patch`: the first non-null value among the
input rasters at the cell (earlier inputs take precedence). -/
def firstSome (l : List (Option Int)) : Option Int := (l.filterMap id).head?

/-- The `tr_sum` raster of `i.sentinel_2.autotraining.py` (lines 515-520):
per cell `if(isnull(rast), 0, 1)` summed over the training rasters.  It is
never null. -/
def trSum (rasters : List Raster) (ncells : Nat) : Raster :=
  (List.range ncells).map fun i =>
    some ((rasters.map fun r => if (r.getD i none).isSome then (1 : Int) else 0).sum)

/-- Active-cell set produced by `r.mask raster=<m>` with the default
`maskcats=*` reclass rule: every non-null cell of `m` (whatever its value,
zero included) becomes active; null cells are masked out. -/
def maskFromRaster (m : Raster) : List Bool := m.map fun v => v.isSome

/-- The `tmp_mask_new` raster of `i.sentinel_2.autotraining.py` (lines
528-534): `if(tr_sum == 1, 1, null())`.  It is computed by the module but
never used as the mask. -/
def tmpMaskNew (ts : Raster) : Raster :=
  ts.map fun v => if v = some 1 then some 1 else none

/-- `r.patch` of the training rasters under an active-cell mask: an active
cell receives the first non-null input value there, a masked cell is null. -/
def patchRasters (rasters : List Raster) (active : List Bool) (ncells : Nat) : Raster :=
  (List.range ncells).map fun i =>
    if active.getD i false then firstSome (rasters.map fun r => r.getD i none) else none

/-- Merge stage of `main` in `i.sentinel_2.autotraining.py` (lines 490-551),
applied to the classes that passed the gate.  Zero classes found:
`grass.fatal` (lines 493-499).  One class found: `g.copy` of its raster; no
pixel count is checked and no warning emitted (lines 500-509).  Two or more:
`tr_sum` is computed and `r.mask raster=tr_sum` is applied (line 535 -- the
raster used is `tr_sum`, not `tmp_mask_new`), each training raster whose
non-null cell count is below `npoints` produces a warning naming the raster
and the count (lines 538-543), and `r.patch` merges the rasters (lines
545-547).  Returns the output raster and the emitted warnings. -/
def mergeStage (found : List TrainingClass) (ncells npoints : Nat) :
    Except String (Raster × List (String × Nat)) :=
  match found with
  | [] => .error ("No automatic training data generation possible. " ++
      "Not enough pixels match the requirements.")
  | [c] => .ok (c.raster, [])
  | _ =>
    let rasters := found.map TrainingClass.raster
    let active := maskFromRaster (trSum rasters ncells)
    let warns := found.filterMap fun c =>
      if cellCount c.raster < npoints then some (c.name, cellCount c.raster) else none
    .ok (patchRasters rasters active ncells, warns)

/-- Distinct category values present in a raster. -/
def rasterCategories (r : Raster) : List Int := (r.filterMap id).dedup

/-- Modelled from the spec: the external `r.sample.category` command (invoked
at `i.sentinel_2.autotraining.py` lines 558-564; the command itself is not
part of this repository) samples, per its documented contract and the
repository's testsuite, exactly `npoints` point features for each category
present in its input raster.  The model returns the total number of point
features of the output vector. -/
def rSampleCategory (r : Raster) (npoints : Nat) : Nat :=
  npoints * (rasterCategories r).length

/-- Merge stage followed by point extraction: on success, the output training
raster, the number of point features of the output vector, and the warnings.
A fatal merge stage propagates: no raster or vector output exists. -/
def autotrainingRun (found : List TrainingClass) (ncells npoints : Nat) :
    Except String (Raster × Nat × List (String × Nat)) :=
  match mergeStage found ncells npoints with
  | .error e => .error e
  | .ok (r, w) => .ok (r, rSampleCategory r npoints, w)

/-- Low-vegetation adaptive NDVI threshold of `i.sentinel_2.autotraining.py`
(lines 308-317): `perc` is the quantile function of the NDVI raster under the
low-vegetation mask (`get_percentile` via `r.quantile`); the masked median
`perc 50` is compared against `ndvi_thresh_lowveg = 0.5` to pick the 25th or
75th percentile as the class threshold. -/
def lowvegNdviThreshold (perc : ℚ → ℚ) : ℚ :=
  let lowvegNdviMedian := perc 50
  let p : ℚ := if lowvegNdviMedian > 1 / 2 then 25 else 75
  perc p

/-- Bare-soil adaptive NDVI threshold of `i.sentinel_2.autotraining.py`
(lines 428-437): `perc` is the quantile function of the NDVI raster under the
bare-soil mask; the masked median is compared against
`ndvi_threshold_baresoil = 0.3`. -/
def baresoilNdviThreshold (perc : ℚ → ℚ) : ℚ :=
  let baresoilNdviMedian := perc 50
  let p : ℚ := if baresoilNdviMedian < 3 / 10 then 75 else 25
  perc p

/-- Threshold selection of `i.sentinel_2.ndvidiff.py` (lines 417-424).  A
GRASS option that was not supplied is the empty string, which is falsy in
Python; `none` models it.  `q1` and `q3` are the `first_quartile` and
`third_quartile` statistics of the NDVI difference map from `r.univar -ge`;
a supplied value is used as-is. -/
def ndviDiffThresholdOf (opt : Option ℚ) (q1 q3 : ℚ) : ℚ :=
  match opt with
  | some v => v
  | none => q1 - 3 / 2 * (q3 - q1)

/-- Nprocs gate of `i.sentinel_2.parallel.index.py` (lines 130-137): a count
above the CPU count is fatal; otherwise the count is handed unchanged to
`r.mapcalc.tiled` / `r.texture.tiled` (when above 1). -/
def parallelIndexCheckNprocs (nprocs cpuCount : Int) : Except String Int :=
  if nprocs > cpuCount then
    .error ("Using " ++ toString nprocs ++ " parallel processes but only " ++
      toString cpuCount ++ " CPUs available.")
  else .ok nprocs

/-- Nprocs gate of `i.sentinel_2.vrt.index.py` (lines 124-132): a count above
the CPU count is reduced to `cpu_count() - 1` (with a warning); the result is
handed to `ParallelModuleQueue`. -/
def vrtIndexEffectiveNprocs (nprocs cpuCount : Int) : Int :=
  if nprocs > cpuCount then cpuCount - 1 else nprocs

/-- Nprocs gate of `i.sentinel_2.sen2cor.py` (lines 158-165) combined with
the value actually written as `Nr_Threads` into L2A_GIPP.xml (line 190): the
raw user-supplied count (the adjusted local variable of line 165 is not the
one written).  A count above the CPU count is fatal before the XML is
written. -/
def sen2corNrThreads (nprocs cpuCount : Int) : Except String Int :=
  if nprocs > cpuCount then
    .error ("Using " ++ toString nprocs ++ " parallel processes but only " ++
      toString cpuCount ++ " CPUs available.")
  else .ok nprocs

/-- NDVI map-algebra formula of `i.sentinel_2.parallel.index.py` (lines
149-153), built from the band option strings. -/
def ndviFormula (red nir output : String) : String :=
  output ++ (" = round(255 * (1.0 + (" ++ nir ++ " - " ++ red ++ ")/float((" ++
    nir ++ " + " ++ red ++ ")))/2.0)")

/-- NDVI branch of `i.sentinel_2.parallel.index.py` (lines 139-153): the
guard is Python's `if not red and nir:` (fatal iff the `red` option is empty
and `nir` is non-empty); otherwise the formula is built and dispatched to the
map-algebra command. -/
def ndviIndexBranch (red nir output : String) : Except String String :=
  if red = "" ∧ nir ≠ "" then
    .error "<red> and <nir> must be set for the index <NDVI>"
  else .ok (ndviFormula red nir output)

/-- Tests whether the first list occurs at the head of the second. -/
def charsMatchAt : List Char → List Char → Bool
  | [], _ => true
  | _ :: _, [] => false
  | p :: ps, h :: hs => p == h && charsMatchAt ps hs

/-- Tests whether the first list occurs contiguously anywhere in the second
(Python's `in` on strings). -/
def charsContain : List Char → List Char → Bool
  | pat, [] => charsMatchAt pat []
  | pat, h :: hs => charsMatchAt pat (h :: hs) || charsContain pat hs

/-- Python's substring test `pat in hay`. -/
def strContainsSub (hay pat : String) : Bool := charsContain pat.data hay.data

/-- Success test of `i.sentinel_2.sen2cor.py` (lines 222-224): solely whether
the tool's stdout contains the substring `terminated successfully`. -/
def sen2corSuccessful (stdoutText : String) : Bool :=
  strContainsSub stdoutText "terminated successfully"

/-- Splits a character list at every underscore, keeping empty pieces, the
semantics of Python's `str.split("_")`. -/
def splitUnderscoreAux : List Char → List Char → List (List Char)
  | [], acc => [acc.reverse]
  | c :: cs, acc =>
    if c = '_' then acc.reverse :: splitUnderscoreAux cs []
    else splitUnderscoreAux cs (c :: acc)

/-- Python's `s.split("_")`. -/
def underscoreFields (s : String) : List String :=
  (splitUnderscoreAux s.data []).map fun l => String.mk l

/-- Third underscore-separated field of a file name, `file.split("_")[2]`;
`none` when the name has fewer than three fields (for the files of the
output directory the IndexError is swallowed by the loop's try/except at
`i.sentinel_2.sen2cor.py` lines 228-244). -/
def dateblockOf (file : String) : Option String := (underscoreFields file).get? 2

/-- Outcome of the post-run logic of `i.sentinel_2.sen2cor.py`: the success
flag, the output-directory entries scheduled for deletion (`rm_folders`),
whether the input `.SAFE` folder was scheduled for removal, and the module
result. -/
structure Sen2corOutcome where
  successful : Bool
  removedOutputs : List String
  inputScheduled : Bool
  result : Except String Unit

/-- Post-run logic of `i.sentinel_2.sen2cor.py` (lines 221-253): success is
decided from stdout alone; on failure every output-directory entry whose
third underscore-separated field equals that of the input scene's base name
is appended to `rm_folders` and the module aborts fatally with the tool's
combined stdout+stderr; the input folder is appended to `rm_folders` (flag
`-r`) only on the success path, since `grass.fatal` aborts first. -/
def sen2corPostRun (stdoutText stderrText inputBase : String)
    (outputFiles : List String) (rflag : Bool) : Sen2corOutcome :=
  if sen2corSuccessful stdoutText then
    { successful := true, removedOutputs := [], inputScheduled := rflag,
      result := .ok () }
  else
    { successful := false,
      removedOutputs := outputFiles.filter fun f =>
        match dateblockOf f, dateblockOf inputBase with
        | some a, some b => a == b
        | _, _ => false,
      inputScheduled := false,
      result := .error ("Error using sen2cor: " ++ stdoutText ++ stderrText) }

/-- Accessor: whether a merge-stage result is a success (the module
continued) rather than a fatal abort. -/
def mergeIsOk (e : Except String (Raster × List (String × Nat))) : Bool :=
  match e with
  | .ok _ => true
  | .error _ => false

/-- Accessor: the warnings emitted by a merge-stage result. -/
def mergeWarnings (e : Except String (Raster × List (String × Nat))) :
    List (String × Nat) :=
  match e with
  | .ok (_, w) => w
  | .error _ => []

/-- Accessor: the number of point features of the output vector of a full
autotraining run, `none` on a fatal run. -/
def runPointCount (e : Except String (Raster × Nat × List (String × Nat))) : Option Nat :=
  match e with
  | .ok (_, n, _) => some n
  | .error _ => none

/-- C1: evaluation of the merge stage at two kept classes whose candidate
rasters overlap at cell 0 (water raster `[10, null]`, low-vegetation raster
`[20, 20]`).  The merged output keeps the overlap cell and assigns it the
first class's label 10, because line 535 masks with `tr_sum` (non-null at
every cell) instead of `tmp_mask_new`; the second conjunct shows that the
computed-but-unused `tmp_mask_new` raster is indeed null exactly at the
overlap cell, i.e. the exclusion the claim (and the code's own comments at
lines 514 and 527) describe never takes effect. -/
theorem autotraining_overlap_cell_kept_in_merge :
    mergeStage
        [{ code := 10, name := "water_raster", raster := [some 10, none] },
         { code := 20, name := "lowveg_raster", raster := [some 20, some 20] }] 2 1 =
      .ok ([some 10, some 20], []) ∧
    tmpMaskNew (trSum [[some 10, none], [some 20, some 20]] 2) = [none, some 1] := by
  constructor <;> rfl

/-- C2: the autotraining module adapts its NDVI percentile per land-cover
class by a conditional on the masked NDVI median: the low-vegetation class
threshold is the 25th NDVI percentile when the median inside the
low-vegetation mask exceeds 0.5 and the 75th otherwise; the bare-soil NDVI
threshold is the 75th percentile when the median inside the bare-soil mask is
below 0.3 and the 25th otherwise. -/
theorem autotraining_adaptive_percentile_branches (percLowveg percBaresoil : ℚ → ℚ) :
    (1 / 2 < percLowveg 50 → lowvegNdviThreshold percLowveg = percLowveg 25) ∧
    (percLowveg 50 ≤ 1 / 2 → lowvegNdviThreshold percLowveg = percLowveg 75) ∧
    (percBaresoil 50 < 3 / 10 → baresoilNdviThreshold percBaresoil = percBaresoil 75) ∧
    (3 / 10 ≤ percBaresoil 50 → baresoilNdviThreshold percBaresoil = percBaresoil 25) := by
  refine ⟨fun h => ?_, fun h => ?_, fun h => ?_, fun h => ?_⟩
  · simp only [lowvegNdviThreshold]
    rw [if_pos h]
  · simp only [lowvegNdviThreshold]
    rw [if_neg (not_lt.mpr h)]
  · simp only [baresoilNdviThreshold]
    rw [if_pos h]
  · simp only [baresoilNdviThreshold]
    rw [if_neg (not_lt.mpr h)]

/-- Witness for C2: for the quantile function `q ↦ q / 100` the masked NDVI
median is exactly 0.5 (not above it) and 0.3 ≤ 0.5, so the low-vegetation
threshold is the 75th percentile and the bare-soil threshold the 25th. -/
theorem autotraining_adaptive_percentile_branches_witness :
    lowvegNdviThreshold (fun q => q / 100) = 3 / 4 ∧
    baresoilNdviThreshold (fun q => q / 100) = 1 / 4 := by
  have h := autotraining_adaptive_percentile_branches (fun q => q / 100) (fun q => q / 100)
  constructor
  · rw [h.2.1 (by norm_num)]
    norm_num
  · rw [h.2.2.2 (by norm_num)]
    norm_num

/-- C3 counterexample: a candidate class whose raster covers exactly
`percentage_threshold` percent of the area (1 of 4 cells at threshold 25) is
NOT included in the outputs: `test_percentage` uses a strict `>`, so covering
at least the threshold percentage does not suffice.  All numbers involved
are exactly representable (or round identically on both compared sides) in
binary floating point, so the Python comparison agrees. -/
theorem test_percentage_boundary_counterexample :
    outputClasses
        [{ code := 10, name := "water_raster", raster := [some 10, none, none, none] }] 4 25 = [] ∧
    (25 : ℚ) * (1 / 100) ≤ (cellCount [some (10 : Int), none, none, none] : ℚ) / 4 := by
  have hc : cellCount [some (10 : Int), none, none, none] = 1 := rfl
  have hf : test_percentage 1 4 25 = false := by
    simp only [test_percentage, decide_eq_false_iff_not, not_lt]
    norm_num
  constructor
  · simp [outputClasses, List.filter_cons, hc, hf]
  · rw [hc]
    norm_num

/-- C3 (amended): a candidate class (and its training raster) is included in
the outputs iff its candidate raster's non-null cell count divided by the
total non-null cell count of the NDVI input covers strictly more than
`percentage_threshold` percent of the area. -/
theorem autotraining_class_gate_iff (candidates : List TrainingClass)
    (totalCells : Nat) (percentageThreshold : ℚ) (c : TrainingClass) :
    c ∈ outputClasses candidates totalCells percentageThreshold ↔
      c ∈ candidates ∧
        (cellCount c.raster : ℚ) / (totalCells : ℚ) > percentageThreshold * (1 / 100) := by
  simp [outputClasses, List.mem_filter, test_percentage]

/-- C4: when the area-coverage gate yields zero classes, the autotraining
module aborts with the descriptive fatal message, and no output raster or
output vector is produced (the run result carries only the error). -/
theorem autotraining_zero_classes_fatal (candidates : List TrainingClass)
    (totalCells ncells npoints : Nat) (percentageThreshold : ℚ)
    (h : outputClasses candidates totalCells percentageThreshold = []) :
    autotrainingRun (outputClasses candidates totalCells percentageThreshold) ncells npoints =
      .error ("No automatic training data generation possible. " ++
        "Not enough pixels match the requirements.") := by
  rw [h]
  rfl

/-- Witness for C4: a single water candidate with an all-null raster fails the
gate at threshold 0.1, and the run is fatal. -/
theorem autotraining_zero_classes_fatal_witness :
    autotrainingRun
        (outputClasses [{ code := 10, name := "water_raster", raster := [none, none] }] 2 (1 / 10))
        2 5 =
      .error ("No automatic training data generation possible. " ++
        "Not enough pixels match the requirements.") :=
  autotraining_zero_classes_fatal
    [{ code := 10, name := "water_raster", raster := [none, none] }] 2 2 5 (1 / 10) (by
      have hc : cellCount ([none, none] : Raster) = 0 := rfl
      have hf : test_percentage 0 2 (1 / 10) = false := by
        simp only [test_percentage, decide_eq_false_iff_not, not_lt]
        norm_num
      simp only [outputClasses, List.filter_cons, hc, hf]
      simp)

/-- C5: in the ndvidiff script the NDVI-loss threshold is
`Q1 - 1.5 * (Q3 - Q1)` when the `ndvi_diff_threshold` option is not supplied,
and the user value unchanged when it is. -/
theorem ndvidiff_threshold_selection (q1 q3 v : ℚ) :
    ndviDiffThresholdOf none q1 q3 = q1 - 3 / 2 * (q3 - q1) ∧
    ndviDiffThresholdOf (some v) q1 q3 = v :=
  ⟨rfl, rfl⟩

/-- C6: in each script that spawns parallel external processes the
user-supplied process count is validated against the CPU count before use: a
count greater than the CPU count is never passed on — parallel.index and
sen2cor abort fatally, vrt.index reduces the count below the CPU count. -/
theorem nprocs_validated_against_cpu_count (nprocs cpuCount k : Int) :
    (parallelIndexCheckNprocs nprocs cpuCount = .ok k → k ≤ cpuCount) ∧
    (cpuCount < nprocs →
      (∃ e, parallelIndexCheckNprocs nprocs cpuCount = .error e) ∧
      vrtIndexEffectiveNprocs nprocs cpuCount < cpuCount ∧
      (∃ e, sen2corNrThreads nprocs cpuCount = .error e)) ∧
    vrtIndexEffectiveNprocs nprocs cpuCount ≤ cpuCount ∧
    (sen2corNrThreads nprocs cpuCount = .ok k → k ≤ cpuCount) := by
  refine ⟨?_, ?_, ?_, ?_⟩
  · intro h
    by_cases hc : cpuCount < nprocs
    · simp [parallelIndexCheckNprocs, hc] at h
    · simp [parallelIndexCheckNprocs, hc] at h
      omega
  · intro hc
    refine ⟨⟨"Using " ++ toString nprocs ++ " parallel processes but only " ++
        toString cpuCount ++ " CPUs available.",
        by simp only [parallelIndexCheckNprocs, if_pos hc]⟩, ?_,
      ⟨"Using " ++ toString nprocs ++ " parallel processes but only " ++
        toString cpuCount ++ " CPUs available.",
        by simp only [sen2corNrThreads, if_pos hc]⟩⟩
    simp only [vrtIndexEffectiveNprocs, if_pos hc]
    omega
  · by_cases hc : cpuCount < nprocs
    · simp only [vrtIndexEffectiveNprocs, if_pos hc]
      omega
    · simp only [vrtIndexEffectiveNprocs, if_neg hc]
      omega
  · intro h
    by_cases hc : cpuCount < nprocs
    · simp [sen2corNrThreads, hc] at h
    · simp [sen2corNrThreads, hc] at h
      omega

/-- Witness for C6: with 9 requested processes and 4 CPUs, parallel.index
goes fatal and vrt.index falls back to 3 processes. -/
theorem nprocs_validated_against_cpu_count_witness :
    (∃ e, parallelIndexCheckNprocs 9 4 = .error e) ∧ vrtIndexEffectiveNprocs 9 4 < 4 :=
  ⟨((nprocs_validated_against_cpu_count 9 4 0).2.1 (by norm_num)).1,
   ((nprocs_validated_against_cpu_count 9 4 0).2.1 (by norm_num)).2.1⟩

/-- C9: in parallel.index with index=NDVI the fatal error that <red> and
<nir> must be set is raised iff the `red` option is empty and the `nir`
option is non-empty; with both options empty no error is raised and the
map-algebra formula built from the empty band names is produced for
dispatch. -/
theorem parallel_index_ndvi_fatal_iff (red nir output : String) :
    ((∃ e, ndviIndexBranch red nir output = .error e) ↔ red = "" ∧ nir ≠ "") ∧
    ndviIndexBranch "" "" output =
      .ok (output ++ " = round(255 * (1.0 + ( - )/float(( + )))/2.0)") := by
  constructor
  · constructor
    · rintro ⟨e, he⟩
      by_cases hc : red = "" ∧ nir ≠ ""
      · exact hc
      · simp [ndviIndexBranch, hc] at he
    · intro hc
      exact ⟨"<red> and <nir> must be set for the index <NDVI>",
        by simp only [ndviIndexBranch, if_pos hc]⟩
  · unfold ndviIndexBranch
    rw [if_neg (by simp)]
    rfl

/-- C8 counterexample: a run that reaches the merge stage with exactly one
class found, whose training raster has only 1 < 5 usable pixels, completes
with NO warning at all — the pixel-count check exists only in the
two-or-more-classes branch (autotraining lines 500-509 versus 538-543). -/
theorem autotraining_single_class_no_warning :
    mergeStage [{ code := 10, name := "water_raster", raster := [some 10, none] }] 2 5 =
      .ok ([some 10, none], []) ∧
    cellCount [some (10 : Int), none] < 5 :=
  ⟨rfl, by decide⟩

/-- C8 (amended): in every run of the merging branch (two or more classes
found), the module emits, for each kept training raster with fewer than
`npoints` usable pixels, a warning naming that raster and its pixel count —
and only those warnings — and continues to completion (the merge succeeds)
rather than aborting; in the single-class path no pixel-count warning is
emitted. -/
theorem autotraining_merge_warnings (found : List TrainingClass) (ncells npoints : Nat)
    (h2 : 2 ≤ found.length) :
    mergeIsOk (mergeStage found ncells npoints) = true ∧
    (∀ c ∈ found, cellCount c.raster < npoints →
      (c.name, cellCount c.raster) ∈ mergeWarnings (mergeStage found ncells npoints)) ∧
    (∀ p ∈ mergeWarnings (mergeStage found ncells npoints),
      ∃ c ∈ found, p = (c.name, cellCount c.raster) ∧ cellCount c.raster < npoints) := by
  match found with
  | [] => simp at h2
  | [c] => simp at h2
  | c1 :: c2 :: rest =>
    refine ⟨rfl, ?_, ?_⟩
    · intro c hc hlt
      rw [show mergeWarnings (mergeStage (c1 :: c2 :: rest) ncells npoints) =
          (c1 :: c2 :: rest).filterMap (fun c =>
            if cellCount c.raster < npoints then some (c.name, cellCount c.raster) else none)
          from rfl, List.mem_filterMap]
      exact ⟨c, hc, by rw [if_pos hlt]⟩
    · intro p hp
      rw [show mergeWarnings (mergeStage (c1 :: c2 :: rest) ncells npoints) =
          (c1 :: c2 :: rest).filterMap (fun c =>
            if cellCount c.raster < npoints then some (c.name, cellCount c.raster) else none)
          from rfl, List.mem_filterMap] at hp
      obtain ⟨c, hc, heq⟩ := hp
      by_cases hlt : cellCount c.raster < npoints
      · rw [if_pos hlt] at heq
        exact ⟨c, hc, (Option.some_inj.mp heq).symm, hlt⟩
      · rw [if_neg hlt] at heq
        exact absurd heq (Option.some_ne_none _).symm

/-- Witness for C8: two classes found, the first raster having 1 < 2 usable
pixels: the merge succeeds and the warning naming that raster with its pixel
count is among the emitted warnings. -/
theorem autotraining_merge_warnings_witness :
    mergeIsOk (mergeStage
        [{ code := 10, name := "water_raster", raster := [some 10, none] },
         { code := 20, name := "lowveg_raster", raster := [some 20, some 20] }] 2 2) = true ∧
    ("water_raster", 1) ∈ mergeWarnings (mergeStage
        [{ code := 10, name := "water_raster", raster := [some 10, none] },
         { code := 20, name := "lowveg_raster", raster := [some 20, some 20] }] 2 2) := by
  have h := autotraining_merge_warnings
    [{ code := 10, name := "water_raster", raster := [some 10, none] },
     { code := 20, name := "lowveg_raster", raster := [some 20, some 20] }] 2 2 (by decide)
  exact ⟨h.1, h.2.1 { code := 10, name := "water_raster", raster := [some 10, none] }
    (List.mem_cons_self _ _) (by decide)⟩

/-- Helper: a `getD` hit on a raster cell is a member of the raster. -/
theorem getD_some_mem {l : Raster} {k : Nat} {v : Int} (h : l.getD k none = some v) :
    some v ∈ l := by
  induction l generalizing k with
  | nil => simp at h
  | cons a t ih =>
    cases k with
    | zero =>
      rw [List.getD_cons_zero] at h
      exact h ▸ List.mem_cons_self _ _
    | succ n =>
      rw [List.getD_cons_succ] at h
      exact List.mem_cons_of_mem _ (ih h)

/-- Helper: the value `r.patch` picks at a cell is one of the stacked cell
values. -/
theorem firstSome_mem {l : List (Option Int)} {v : Int} (h : firstSome l = some v) :
    some v ∈ l := by
  unfold firstSome at h
  have hv : v ∈ l.filterMap id := List.mem_of_mem_head? h
  rw [List.mem_filterMap] at hv
  obtain ⟨a, ha, hid⟩ := hv
  exact (show a = some v from hid) ▸ ha

/-- Helper: when every non-null stacked cell value is `v` and one exists,
`r.patch` picks `v` at the cell. -/
theorem firstSome_eq_of_unique {l : List (Option Int)} {v : Int}
    (hmem : some v ∈ l) (huniq : ∀ w : Int, some w ∈ l → w = v) :
    firstSome l = some v := by
  induction l with
  | nil => simp at hmem
  | cons a t ih =>
    cases a with
    | none =>
      have h1 : firstSome (none :: t) = firstSome t := rfl
      rw [h1]
      apply ih
      · rcases List.mem_cons.mp hmem with h | h
        · exact absurd h.symm (by simp)
        · exact h
      · intro w hw
        exact huniq w (List.mem_cons_of_mem _ hw)
    | some w =>
      have h1 : firstSome (some w :: t) = some w := rfl
      rw [h1, huniq w (List.mem_cons_self _ _)]

/-- Helper: indexing a map over `List.range`. -/
theorem range_map_getD {α : Type} (f : Nat → α) (n k : Nat) (d : α) (hk : k < n) :
    ((List.range n).map f).getD k d = f k := by
  rw [List.getD_eq_getElem?_getD, List.getElem?_map, List.getElem?_range hk]
  rfl

/-- Helper: the mask the module actually applies — built from `tr_sum` — is
active at every cell of the region, because `tr_sum` is nowhere null. -/
theorem trSum_active (rs : List Raster) (ncells k : Nat) (hk : k < ncells) :
    (maskFromRaster (trSum rs ncells)).getD k false = true := by
  unfold maskFromRaster trSum
  rw [List.map_map, range_map_getD _ _ _ _ hk]
  rfl

/-- Helper: a cell of the patched raster inside the region. -/
theorem patchRasters_getD (rs : List Raster) (act : List Bool) (ncells k : Nat)
    (hk : k < ncells) :
    (patchRasters rs act ncells).getD k none =
      if act.getD k false then firstSome (rs.map fun r => r.getD k none) else none := by
  unfold patchRasters
  rw [range_map_getD _ _ _ _ hk]

/-- Helper: a non-empty constant-valued list of categories has the singleton
value set. -/
theorem const_toFinset {l : List Int} {a : Int} (h : ∀ v ∈ l, v = a) (hne : l ≠ []) :
    l.toFinset = {a} := by
  ext x
  simp only [List.mem_toFinset, Finset.mem_singleton]
  constructor
  · intro hx
    exact h x hx
  · intro hx
    obtain ⟨y, hy⟩ := List.exists_mem_of_ne_nil l hne
    rw [hx, ← h y hy]
    exact hy

/-- Helper: when the kept class rasters each carry their own class code, are
pairwise disjoint within the region and each contain at least one non-null
cell, the category set of the raster the merge stage patches together is
exactly the set of kept class codes. -/
theorem patch_categories (found : List TrainingClass) (ncells : Nat)
    (hlen : ∀ c ∈ found, c.raster.length = ncells)
    (hval : ∀ c ∈ found, ∀ v ∈ c.raster, v = none ∨ v = some c.code)
    (hdisj : found.Pairwise fun a b => ∀ k < ncells,
      ¬((a.raster.getD k none).isSome ∧ (b.raster.getD k none).isSome))
    (hpos : ∀ c ∈ found, 1 ≤ cellCount c.raster) :
    ((patchRasters (found.map TrainingClass.raster)
        (maskFromRaster (trSum (found.map TrainingClass.raster) ncells)) ncells).filterMap
          id).toFinset =
      (found.map TrainingClass.code).toFinset := by
  have hsym : Symmetric (fun a b : TrainingClass => ∀ k < ncells,
      ¬((a.raster.getD k none).isSome ∧ (b.raster.getD k none).isSome)) := by
    intro a b hab k hk hcon
    exact hab k hk ⟨hcon.2, hcon.1⟩
  ext v
  simp only [List.mem_toFinset]
  constructor
  · intro hv
    rw [List.mem_filterMap] at hv
    obtain ⟨a, ha, hid⟩ := hv
    have ha' : some v ∈ patchRasters (found.map TrainingClass.raster)
        (maskFromRaster (trSum (found.map TrainingClass.raster) ncells)) ncells :=
      (show a = some v from hid) ▸ ha
    obtain ⟨k, hk, hkeq⟩ := List.getElem_of_mem ha'
    have hklen : k < ncells := by
      have hl : (patchRasters (found.map TrainingClass.raster)
          (maskFromRaster (trSum (found.map TrainingClass.raster) ncells)) ncells).length =
          ncells := by
        unfold patchRasters
        rw [List.length_map, List.length_range]
      omega
    have hgd : (patchRasters (found.map TrainingClass.raster)
        (maskFromRaster (trSum (found.map TrainingClass.raster) ncells)) ncells).getD k none =
        some v := by
      rw [List.getD_eq_getElem?_getD, List.getElem?_eq_getElem hk, Option.getD_some, hkeq]
    rw [patchRasters_getD _ _ _ _ hklen, trSum_active _ _ _ hklen, if_pos rfl] at hgd
    have h2 := firstSome_mem hgd
    rw [List.map_map, List.mem_map] at h2
    obtain ⟨c, hc, hcr⟩ := h2
    have hcr' : c.raster.getD k none = some v := hcr
    have hsv : some v ∈ c.raster := getD_some_mem hcr'
    rcases hval c hc (some v) hsv with h | h
    · exact absurd h (by simp)
    · rw [List.mem_map]
      exact ⟨c, hc, (Option.some_inj.mp h).symm⟩
  · intro hv
    rw [List.mem_map] at hv
    obtain ⟨c, hc, hcode⟩ := hv
    have h1 := hpos c hc
    have h2 : c.raster.filterMap id ≠ [] := by
      intro hnil
      have h0 : cellCount c.raster = 0 := by
        unfold cellCount
        rw [hnil]
        rfl
      omega
    obtain ⟨w, hw⟩ := List.exists_mem_of_ne_nil _ h2
    rw [List.mem_filterMap] at hw
    obtain ⟨a, ha, haw⟩ := hw
    have hsw : some w ∈ c.raster := (show a = some w from haw) ▸ ha
    have hwc : w = c.code := by
      rcases hval c hc (some w) hsw with h | h
      · exact absurd h (by simp)
      · exact Option.some_inj.mp h
    obtain ⟨k, hklen, hkget⟩ := List.getElem_of_mem hsw
    have hkn : k < ncells := hlen c hc ▸ hklen
    have hgetD : c.raster.getD k none = some c.code := by
      rw [List.getD_eq_getElem?_getD, List.getElem?_eq_getElem hklen, Option.getD_some, hkget,
        hwc]
    rw [List.mem_filterMap]
    refine ⟨some v, ?_, rfl⟩
    apply getD_some_mem (k := k)
    rw [patchRasters_getD _ _ _ _ hkn, trSum_active _ _ _ hkn, if_pos rfl, List.map_map,
      ← hcode]
    apply firstSome_eq_of_unique
    · rw [List.mem_map]
      exact ⟨c, hc, hgetD⟩
    · intro w' hw'
      rw [List.mem_map] at hw'
      obtain ⟨c', hc', hgd⟩ := hw'
      have hgd' : c'.raster.getD k none = some w' := hgd
      by_cases hcc : c' = c
      · subst hcc
        exact Option.some_inj.mp (hgd'.symm.trans hgetD)
      · exfalso
        exact hdisj.forall hsym hc' hc hcc k hkn
          ⟨by rw [hgd']; rfl, by rw [hgetD]; rfl⟩

/-- Helper: the point-feature count of a full autotraining run whose kept
classes partition cleanly (own-code rasters, pairwise disjoint, each
non-empty) is `npoints` times the number of kept classes. -/
theorem run_point_count_of_partition (found : List TrainingClass) (ncells npoints : Nat)
    (hlen : ∀ c ∈ found, c.raster.length = ncells)
    (hval : ∀ c ∈ found, ∀ v ∈ c.raster, v = none ∨ v = some c.code)
    (hcodes : (found.map TrainingClass.code).Nodup)
    (hdisj : found.Pairwise fun a b => ∀ k < ncells,
      ¬((a.raster.getD k none).isSome ∧ (b.raster.getD k none).isSome))
    (hpos : ∀ c ∈ found, 1 ≤ cellCount c.raster)
    (hne : found ≠ []) :
    runPointCount (autotrainingRun found ncells npoints) = some (npoints * found.length) := by
  rcases found with _ | ⟨c1, _ | ⟨c2, rest⟩⟩
  · exact absurd rfl hne
  · have hc : c1 ∈ [c1] := List.mem_cons_self _ _
    have h1 := hpos c1 hc
    have h2 : c1.raster.filterMap id ≠ [] := by
      intro hnil
      have h0 : cellCount c1.raster = 0 := by
        unfold cellCount
        rw [hnil]
        rfl
      omega
    have hconst : ∀ v ∈ c1.raster.filterMap id, v = c1.code := by
      intro v hv
      rw [List.mem_filterMap] at hv
      obtain ⟨a, ha, hid⟩ := hv
      have hsv : some v ∈ c1.raster := (show a = some v from hid) ▸ ha
      rcases hval c1 hc (some v) hsv with h | h
      · exact absurd h (by simp)
      · exact Option.some_inj.mp h
    have hlen1 : (rasterCategories c1.raster).length = 1 := by
      unfold rasterCategories
      rw [← List.card_toFinset, const_toFinset hconst h2]
      exact Finset.card_singleton _
    show some (rSampleCategory c1.raster npoints) = some (npoints * [c1].length)
    unfold rSampleCategory
    rw [hlen1]
    rfl
  · show some (rSampleCategory (patchRasters ((c1 :: c2 :: rest).map TrainingClass.raster)
        (maskFromRaster (trSum ((c1 :: c2 :: rest).map TrainingClass.raster) ncells)) ncells)
        npoints) = some (npoints * (c1 :: c2 :: rest).length)
    congr 1
    unfold rSampleCategory rasterCategories
    rw [← List.card_toFinset, patch_categories (c1 :: c2 :: rest) ncells hlen hval hdisj hpos,
      List.toFinset_card_of_nodup hcodes, List.length_map]

/-- C7: the output vector of the autotraining module contains exactly
`npoints * number_of_classes_found` point features, where
`number_of_classes_found` is the number of classes that passed the
area-coverage test.  Stated for runs in which the kept class rasters carry
their own class code, the class codes are distinct, and the kept rasters are
pairwise disjoint within the region (so no kept class is swallowed by an
earlier one during patching); that each kept raster is non-empty follows
from passing the gate. -/
theorem autotraining_vector_point_count (candidates : List TrainingClass)
    (totalCells ncells npoints : Nat) (percentageThreshold : ℚ)
    (hthr : 0 ≤ percentageThreshold)
    (hlen : ∀ c ∈ outputClasses candidates totalCells percentageThreshold,
      c.raster.length = ncells)
    (hval : ∀ c ∈ outputClasses candidates totalCells percentageThreshold,
      ∀ v ∈ c.raster, v = none ∨ v = some c.code)
    (hcodes : ((outputClasses candidates totalCells percentageThreshold).map
      TrainingClass.code).Nodup)
    (hdisj : (outputClasses candidates totalCells percentageThreshold).Pairwise fun a b =>
      ∀ k < ncells, ¬((a.raster.getD k none).isSome ∧ (b.raster.getD k none).isSome))
    (hne : outputClasses candidates totalCells percentageThreshold ≠ []) :
    runPointCount (autotrainingRun (outputClasses candidates totalCells percentageThreshold)
        ncells npoints) =
      some (npoints * (outputClasses candidates totalCells percentageThreshold).length) := by
  refine run_point_count_of_partition _ ncells npoints hlen hval hcodes hdisj ?_ hne
  intro c hc
  have ht := (List.mem_filter.mp hc).2
  simp only [test_percentage, decide_eq_true_eq] at ht
  by_contra hlt
  push_neg at hlt
  have h0 : cellCount c.raster = 0 := by omega
  rw [h0] at ht
  norm_num at ht
  have hge : 0 ≤ percentageThreshold * (1 / 100) :=
    mul_nonneg hthr (by norm_num)
  linarith

/-- Witness for C7: two kept classes on a 4-cell region with disjoint
own-coded rasters and `npoints = 7` give a vector of 14 point features. -/
theorem autotraining_vector_point_count_witness :
    runPointCount (autotrainingRun
        (outputClasses
          [{ code := 10, name := "water_raster", raster := [some 10, none, none, none] },
           { code := 20, name := "lowveg_raster", raster := [none, some 20, some 20, none] }]
          4 1) 4 7) = some 14 := by
  have ht1 : test_percentage 1 4 1 = true := by
    simp only [test_percentage, decide_eq_true_eq]
    norm_num
  have ht2 : test_percentage 2 4 1 = true := by
    simp only [test_percentage, decide_eq_true_eq]
    norm_num
  have hc1 : cellCount [some (10 : Int), none, none, none] = 1 := rfl
  have hc2 : cellCount [none, some (20 : Int), some 20, none] = 2 := rfl
  have hout : outputClasses
      [{ code := 10, name := "water_raster", raster := [some 10, none, none, none] },
       { code := 20, name := "lowveg_raster", raster := [none, some 20, some 20, none] }]
      4 1 =
      [{ code := 10, name := "water_raster", raster := [some 10, none, none, none] },
       { code := 20, name := "lowveg_raster", raster := [none, some 20, some 20, none] }] := by
    simp only [outputClasses, List.filter_cons, List.filter_nil, hc1, hc2, ht1, ht2]
    simp
  have h := autotraining_vector_point_count
    [{ code := 10, name := "water_raster", raster := [some 10, none, none, none] },
     { code := 20, name := "lowveg_raster", raster := [none, some 20, some 20, none] }]
    4 4 7 1 (by norm_num)
    (by rw [hout]; decide) (by rw [hout]; decide) (by rw [hout]; decide)
    (by rw [hout]; decide) (by rw [hout]; decide)
  rw [h, hout]
  rfl

/-- C10: sen2cor success is decided solely by whether stdout contains
`terminated successfully`; on an unsuccessful run every output-directory
entry whose third underscore-separated name field matches the input scene's
is scheduled for deletion and the module aborts fatally with the tool's
combined stdout+stderr; the input `.SAFE` folder is scheduled for removal
under flag `-r` exactly on successful runs. -/
theorem sen2cor_outcome_spec (stdoutText stderrText inputBase : String)
    (outputFiles : List String) (rflag : Bool) (b : String)
    (hin : dateblockOf inputBase = some b) :
    ((sen2corPostRun stdoutText stderrText inputBase outputFiles rflag).successful = true ↔
      strContainsSub stdoutText "terminated successfully" = true) ∧
    (sen2corSuccessful stdoutText = false →
      (sen2corPostRun stdoutText stderrText inputBase outputFiles rflag).result =
        .error ("Error using sen2cor: " ++ stdoutText ++ stderrText) ∧
      (sen2corPostRun stdoutText stderrText inputBase outputFiles rflag).removedOutputs =
        outputFiles.filter (fun f => dateblockOf f == some b) ∧
      (sen2corPostRun stdoutText stderrText inputBase outputFiles rflag).inputScheduled =
        false) ∧
    ((sen2corPostRun stdoutText stderrText inputBase outputFiles rflag).inputScheduled = true ↔
      rflag = true ∧ sen2corSuccessful stdoutText = true) := by
  cases hs : sen2corSuccessful stdoutText with
  | true =>
    have hpost : sen2corPostRun stdoutText stderrText inputBase outputFiles rflag =
        { successful := true, removedOutputs := [], inputScheduled := rflag,
          result := .ok () } := by
      unfold sen2corPostRun
      rw [hs]
      rfl
    refine ⟨?_, ?_, ?_⟩
    · rw [hpost]
      exact ⟨fun _ => hs, fun _ => rfl⟩
    · intro hf
      exact absurd hf (by simp)
    · rw [hpost]
      exact ⟨fun h => ⟨h, rfl⟩, fun h => h.1⟩
  | false =>
    have hpost : sen2corPostRun stdoutText stderrText inputBase outputFiles rflag =
        { successful := false,
          removedOutputs := outputFiles.filter fun f =>
            match dateblockOf f, dateblockOf inputBase with
            | some a, some b => a == b
            | _, _ => false,
          inputScheduled := false,
          result := .error ("Error using sen2cor: " ++ stdoutText ++ stderrText) } := by
      unfold sen2corPostRun
      rw [hs]
      rfl
    refine ⟨?_, ?_, ?_⟩
    · rw [hpost]
      constructor
      · intro h
        exact absurd h (by simp)
      · intro h
        have h2 : sen2corSuccessful stdoutText = true := h
        rw [hs] at h2
        exact absurd h2 (by simp)
    · intro _
      rw [hpost]
      refine ⟨rfl, ?_, rfl⟩
      rw [hin]
      apply List.filter_congr
      intro f _
      cases hdf : dateblockOf f with
      | none => rfl
      | some a => rfl
    · rw [hpost]
      constructor
      · intro h
        exact absurd h (by simp)
      · rintro ⟨_, h2⟩
        exact absurd h2 (by simp)

/-- Witness for C10: an unsuccessful run ("boom" does not contain the marker)
with two output files, of which only the one whose third underscore field is
the input's dateblock gets scheduled; the run fails with the combined output
and the input folder is not scheduled despite `-r`. -/
theorem sen2cor_outcome_spec_witness :
    (sen2corPostRun "boom" "err" "S2A_MSIL1C_20200101T000000_N0208.SAFE"
        ["S2A_MSIL2A_20200101T000000_N9999.SAFE", "S2B_MSIL2A_20211231T000000_N9999.SAFE"]
        true).removedOutputs = ["S2A_MSIL2A_20200101T000000_N9999.SAFE"] ∧
    (sen2corPostRun "boom" "err" "S2A_MSIL1C_20200101T000000_N0208.SAFE"
        ["S2A_MSIL2A_20200101T000000_N9999.SAFE", "S2B_MSIL2A_20211231T000000_N9999.SAFE"]
        true).result = .error ("Error using sen2cor: " ++ "boom" ++ "err") ∧
    (sen2corPostRun "boom" "err" "S2A_MSIL1C_20200101T000000_N0208.SAFE"
        ["S2A_MSIL2A_20200101T000000_N9999.SAFE", "S2B_MSIL2A_20211231T000000_N9999.SAFE"]
        true).inputScheduled = false := by
  have h := sen2cor_outcome_spec "boom" "err" "S2A_MSIL1C_20200101T000000_N0208.SAFE"
    ["S2A_MSIL2A_20200101T000000_N9999.SAFE", "S2B_MSIL2A_20211231T000000_N9999.SAFE"]
    true "20200101T000000" (by decide)
  have hfail := h.2.1 (by decide)
  refine ⟨?_, hfail.1, hfail.2.2⟩
  rw [hfail.2.1]
  decide

/-- C7 counterexample: both classes pass the area-coverage gate on a 2-cell
region (counts 2 and 1 at threshold 1 percent), so
`number_of_classes_found = 2`; but the low-vegetation raster is wholly
overlapped by the water raster, the merge keeps overlap cells with the first
class's label (line 535 masks with `tr_sum`, cf. C1), so the merged raster
carries a single category and the output vector gets `npoints * 1 = 7` point
features, not `npoints * number_of_classes_found = 14` as claimed. -/
theorem autotraining_point_count_overlap_counterexample :
    (outputClasses
        [{ code := 10, name := "water_raster", raster := [some 10, some 10] },
         { code := 20, name := "lowveg_raster", raster := [some 20, none] }] 2 1).length = 2 ∧
    runPointCount (autotrainingRun
        (outputClasses
          [{ code := 10, name := "water_raster", raster := [some 10, some 10] },
           { code := 20, name := "lowveg_raster", raster := [some 20, none] }] 2 1) 2 7) =
      some 7 ∧
    runPointCount (autotrainingRun
        (outputClasses
          [{ code := 10, name := "water_raster", raster := [some 10, some 10] },
           { code := 20, name := "lowveg_raster", raster := [some 20, none] }] 2 1) 2 7) ≠
      some (7 *
        (outputClasses
          [{ code := 10, name := "water_raster", raster := [some 10, some 10] },
           { code := 20, name := "lowveg_raster", raster := [some 20, none] }] 2 1).length) := by
  have ht1 : test_percentage 2 2 1 = true := by
    simp only [test_percentage, decide_eq_true_eq]
    norm_num
  have ht2 : test_percentage 1 2 1 = true := by
    simp only [test_percentage, decide_eq_true_eq]
    norm_num
  have hc1 : cellCount [some (10 : Int), some 10] = 2 := rfl
  have hc2 : cellCount [some (20 : Int), none] = 1 := rfl
  have hout : outputClasses
      [{ code := 10, name := "water_raster", raster := [some 10, some 10] },
       { code := 20, name := "lowveg_raster", raster := [some 20, none] }] 2 1 =
      [{ code := 10, name := "water_raster", raster := [some 10, some 10] },
       { code := 20, name := "lowveg_raster", raster := [some 20, none] }] := by
    simp only [outputClasses, List.filter_cons, List.filter_nil, hc1, hc2, ht1, ht2]
    simp
  rw [hout]
  refine ⟨rfl, ?_, ?_⟩
  · rfl
  · decide
